import Mathlib

/-!
Verification development for the sheets-combiner change-detection core
(src/streamlit_app.py).  The Python functions `calculate_content_hash`,
`download_sheet_data`, `update_sheet_status` and `combine_and_save_data`
are shallowly embedded as executable Lean functions; Streamlit UI calls,
credential handling and the remote API client are treated as external
collaborators (their results become explicit inputs, their observable
effects become explicit outputs).
-/

set_option maxRecDepth 2000

namespace SheetsCombiner

/-- A spreadsheet cell after row-width normalization: `none` models the
Python `None` values used for padding short rows; values fetched from the
API are strings. -/
abbrev Cell := Option String

/-- Grid metadata returned by `get_sheet_metadata` (row count, column
count, modified time). -/
structure Metadata where
  row_count : Nat
  column_count : Nat
  modified_time : String
deriving DecidableEq, Repr

/-- One per-sheet tracking entry, as stored under
`tracking_data['sheets_data'][sheet_key]`.  The dict written by the commit
path has keys `metadata`, `content_hash`, `last_processed`; the key
`last_checked` only appears after a skip refresh, so it is optional. -/
structure SheetEntry where
  metadata : Option Metadata
  content_hash : Int
  last_processed : Option String
  last_checked : Option String
deriving DecidableEq, Repr

/-- The tracking store (`sheets_tracking_app.json`): `last_run` plus the
per-sheet entries.  The Python dict is modelled as an insertion-ordered
association list. -/
structure TrackingData where
  last_run : Option String
  sheets_data : List (String × SheetEntry)
deriving DecidableEq, Repr

/-- Dict lookup `d.get(k)` on the sheets-data mapping. -/
def getEntry : List (String × SheetEntry) → String → Option SheetEntry
  | [], _ => none
  | (k', e) :: rest, k => if k' = k then some e else getEntry rest k

/-- Dict assignment `d[k] = e`: replaces the binding in place or appends a
new one. -/
def setEntry : List (String × SheetEntry) → String → SheetEntry → List (String × SheetEntry)
  | [], k, e => [(k, e)]
  | (k', e') :: rest, k, e =>
    if k' = k then (k, e) :: rest else (k', e') :: setEntry rest k e

/-- The filtered DataFrame built in `download_sheet_data`: the declared
header names, the surviving data rows each tagged with its pandas index
(its 0-based position among the fetched data rows, which boolean-mask
filtering preserves), and the two injected provenance columns
`source_spreadsheet` / `source_sheet` (constant per frame). -/
structure DF where
  headers : List String
  rows : List (Nat × List Cell)
  source_spreadsheet : String
  source_sheet : String
deriving DecidableEq, Repr

/-- Row-width normalization (lines 221-226): pad short rows with `None`,
truncate long rows to the header width. -/
def normalizeRow (width : Nat) (row : List String) : List Cell :=
  if row.length < width then row.map some ++ List.replicate (width - row.length) none
  else (row.take width).map some

/-- The inclusion predicate of the row filter (lines 236-238): column 0
equals the literal "New Request", and column 1 is non-null and non-empty.
Label-based column selection `df[headers[0]]` / `df[headers[1]]` is
modelled positionally, which coincides with pandas when the first two
header names are distinct and unique. -/
def rowPasses (cells : List Cell) : Bool :=
  (cells.getD 0 none == some "New Request") &&
  (cells.getD 1 none).isSome &&
  (cells.getD 1 none != some "")

/-- Build the filtered DataFrame from the fetched header row and raw data
rows (lines 219-245): normalize widths, attach the 0-based pandas index,
filter, and record provenance. -/
def buildDF (spreadsheet_id sheet_name : String) (headers : List String)
    (raw_rows : List (List String)) : DF :=
  { headers := headers
    rows := ((raw_rows.map (normalizeRow headers.length)).enum).filter
      (fun ic => rowPasses ic.2)
    source_spreadsheet := spreadsheet_id
    source_sheet := sheet_name }

/-- The cell contents of the filtered rows, forgetting their pandas
indices: "the filtered row contents" in the sense of the specification. -/
def contentsOf (df : DF) : List (List Cell) :=
  df.rows.map (fun r => r.2)

/-! ### The content fingerprint

`calculate_content_hash` (lines 166-170) is
`hash(pd.util.hash_pandas_object(data_frame).sum())` for a nonempty frame
and `hash("empty")` otherwise.  The embedding keeps the structure of that
computation exactly; the two library digests that it leans on are modelled
by concrete executable stand-ins that preserve their documented
properties:

* `pd.util.hash_pandas_object` (default `index=True`, fixed internal
  `hash_key`) produces one deterministic, salt-independent uint64 per row
  that mixes the hashed *pandas index label* with the hash of every
  column value (including the injected provenance columns); `.sum()`
  wraps around modulo 2^64.  `hashPandasObjectSum` below reproduces that
  shape (index mixed in, then every cell, summed mod 2^64); the exact
  SipHash constants of pandas are abstracted to a concrete polynomial
  digest.
* CPython's `hash` on an `int` reduces modulo the Mersenne prime
  2^61 - 1 (`pyHashInt`); on a `str` it is salted by the per-process
  `PYTHONHASHSEED` secret, modelled by the explicit `salt` argument of
  `pyStrHash`.
-/

/-- Deterministic digest of a string, mod 2^64 (stand-in for the fixed-key
SipHash used by pandas on string data). -/
def strDigest (s : String) : Nat :=
  s.data.foldl (fun a c => (a * 1000003 + c.toNat + 1) % 2 ^ 64) 5381

/-- Digest of one cell; `none` (a padded null) hashes to a fixed value,
distinct from the digests of strings. -/
def cellDigest : Cell → Nat
  | none => 2305843009213693951
  | some s => (strDigest s * 2 + 1) % 2 ^ 64

/-- Mixing of the hashed pandas index label into the row digest. -/
def indexMix (i : Nat) : Nat :=
  (i * 0xbf58476d1ce4e5b9 + 0x9e3779b97f4a7c15) % 2 ^ 64

/-- The uint64 hash of one row of the frame: the hashed index label
combined with the digest of every column value, the two provenance
columns included. -/
def rowDigest (source_spreadsheet source_sheet : String) (r : Nat × List Cell) : Nat :=
  (r.2 ++ [some source_spreadsheet, some source_sheet]).foldl
    (fun a c => (a * 3644798167 + cellDigest c) % 2 ^ 64) (indexMix r.1)

/-- Model of `pd.util.hash_pandas_object(df).sum()`: the wrapping uint64
sum of the per-row hashes. -/
def hashPandasObjectSum (df : DF) : Nat :=
  df.rows.foldl
    (fun a r => (a + rowDigest df.source_spreadsheet df.source_sheet r) % 2 ^ 64) 0

/-- CPython's hash of a nonnegative integer: reduction modulo 2^61 - 1. -/
def pyHashInt (n : Nat) : Int :=
  ((n % (2 ^ 61 - 1) : Nat) : Int)

/-- CPython's salted string hash: the per-process random secret
(`PYTHONHASHSEED`) enters the digest, so the value of `hash("empty")` is
stable within one process run but not across runs. -/
def pyStrHash (salt : Nat) (s : String) : Int :=
  (((strDigest s + salt * 0x9e3779b97f4a7c15) % 2 ^ 64 % (2 ^ 61 - 1) : Nat) : Int)

/-- `calculate_content_hash` (lines 166-170): `hash("empty")` for a
missing or empty frame, otherwise the Python hash of the wrapping sum of
the pandas per-row hashes. -/
def calculate_content_hash (salt : Nat) : Option DF → Int
  | none => pyStrHash salt "empty"
  | some df =>
    if df.rows.length = 0 then pyStrHash salt "empty"
    else pyHashInt (hashPandasObjectSum df)

/-! ### `download_sheet_data`

The body of `download_sheet_data` (lines 189-283) is one big `try` block;
`download_core` embeds that body, with the remote calls turned into
inputs: `md?` is what `get_sheet_metadata` returns (`none` covers both a
missing sheet and a metadata error, in which case that helper reports and
returns `None`), and `fetch` is the outcome of the
`spreadsheets().values().get(...)` call (`Except.error` models a raised
`HttpError`).  Python exceptions escaping the body are the `Except.error`
results; the wrapper `download_sheet_data` is the function with its
`except` handlers (lines 278-283), which report the error and return
`None`.  The module constants `FORCE_REFRESH` / `TRACK_CHANGES` are
passed as parameters (their values in the source are `False` / `True`).
-/

/-- Exceptions that the embedded body can raise. -/
inductive PyErr where
  | keyError
  | indexError
  | httpError
deriving DecidableEq, Repr

/-- `sheet_key = f"{spreadsheet_id}_{sheet_name}"`. -/
def sheetKey (spreadsheet_id sheet_name : String) : String :=
  spreadsheet_id ++ "_" ++ sheet_name

/-- `tracking_data['sheets_data'].get(sheet_key, {}).get('content_hash', 0)`:
the stored fingerprint, defaulting to `0` for an absent entry. -/
def previousHash (t : TrackingData) (key : String) : Int :=
  ((getEntry t.sheets_data key).map (fun e => e.content_hash)).getD 0

/-- The commit write (lines 253-257 and 270-274): replace the whole entry
with fresh metadata, fingerprint and `last_processed` (dropping any
`last_checked`). -/
def commitEntry (salt : Nat) (t : TrackingData) (key : String) (md? : Option Metadata)
    (df : DF) (now : String) : TrackingData :=
  { t with
    sheets_data := setEntry t.sheets_data key
      { metadata := md?
        content_hash := calculate_content_hash salt (some df)
        last_processed := some now
        last_checked := none } }

/-- The skip refresh (lines 265-266): update `metadata` and
`last_checked` of the existing entry in place. -/
def touchEntry (t : TrackingData) (key : String) (e : SheetEntry) (md? : Option Metadata)
    (now : String) : TrackingData :=
  { t with
    sheets_data := setEntry t.sheets_data key
      { e with metadata := md?, last_checked := some now } }

/-- The `try` body of `download_sheet_data` (lines 192-276). -/
def download_core (FORCE_REFRESH TRACK_CHANGES : Bool) (salt : Nat)
    (spreadsheet_id sheet_name : String) (md? : Option Metadata)
    (fetch : Except Unit (List (List String)))
    (tracking : TrackingData) (now : String) :
    Except PyErr (Option DF × TrackingData) :=
  -- Lines 192-207: outside force mode, the metadata pre-check runs first;
  -- a missing result returns `None` before any values are fetched.  The
  -- row-count / modified-time comparison computed there has no effect on
  -- the outcome (both branches are `pass`), so it is not represented.
  if FORCE_REFRESH = false ∧ md? = none then .ok (none, tracking)
  else
    match fetch with
    | .error _ => .error PyErr.httpError
    | .ok [] => .ok (none, tracking)
    | .ok (headers :: raw_rows) =>
      if headers.length > 1 then
        let df := buildDF spreadsheet_id sheet_name headers raw_rows
        if df.rows.length = 0 then .ok (none, tracking)
        else if FORCE_REFRESH || !TRACK_CHANGES then
          .ok (some df, commitEntry salt tracking (sheetKey spreadsheet_id sheet_name) md? df now)
        else
          if calculate_content_hash salt (some df) =
              previousHash tracking (sheetKey spreadsheet_id sheet_name) then
            match getEntry tracking.sheets_data (sheetKey spreadsheet_id sheet_name) with
            | none => .error PyErr.keyError
            | some e =>
              .ok (none, touchEntry tracking (sheetKey spreadsheet_id sheet_name) e md? now)
          else
            .ok (some df, commitEntry salt tracking (sheetKey spreadsheet_id sheet_name) md? df now)
      else .ok (none, tracking)

/-- The observable result of one `download_sheet_data` call: the returned
frame (`none` models Python `None`), the tracking dict after the call, and
whether the call reported an error via `st.error` from its own `except`
handlers. -/
structure DownloadResult where
  df : Option DF
  tracking : TrackingData
  error_reported : Bool
deriving DecidableEq, Repr

/-- `download_sheet_data` (lines 189-283): the body with its exception
handlers.  Both raise sites (`HttpError` from the values fetch, `KeyError`
from the skip refresh) occur before any mutation of the tracking dict, so
on an exception the store is returned unchanged. -/
def download_sheet_data (FORCE_REFRESH TRACK_CHANGES : Bool) (salt : Nat)
    (spreadsheet_id sheet_name : String) (md? : Option Metadata)
    (fetch : Except Unit (List (List String)))
    (tracking : TrackingData) (now : String) : DownloadResult :=
  match download_core FORCE_REFRESH TRACK_CHANGES salt spreadsheet_id sheet_name md?
      fetch tracking now with
  | .ok (df?, t') => { df := df?, tracking := t', error_reported := false }
  | .error _ => { df := none, tracking := tracking, error_reported := true }

/-! ### `update_sheet_status`

`update_sheet_status` (lines 285-334) re-fetches the raw rows, scans them,
and schedules one batch write per raw row it matches; the batch is
submitted only when nonempty.  The embedding returns the list of
`(range, value)` pairs placed into `batch_update_request['data']`; any
exception inside the `try` (an `IndexError` from `headers[1]` or a
`KeyError` from the label lookup `df_row[headers[1]]`) is caught by the
function's own handler before the batch call, so it yields no writes.
-/

/-- First-occurrence position of a column label (Python label lookup on
the frame's columns). -/
def indexOfName : List String → String → Option Nat
  | [], _ => none
  | c :: cs, name =>
    if c = name then some 0 else (indexOfName cs name).map (fun j => j + 1)

/-- The column labels of the filtered frame: the declared headers plus the
two injected provenance columns (lines 229-230). -/
def dfColumns (df : DF) : List String :=
  df.headers ++ ["source_spreadsheet", "source_sheet"]

/-- The cell values of one frame row under those labels. -/
def dfRowCells (df : DF) (cells : List Cell) : List Cell :=
  cells ++ [some df.source_spreadsheet, some df.source_sheet]

/-- `df_row[name]`: label lookup on a row; `none` models a `KeyError`. -/
def dfLookup (df : DF) (cells : List Cell) (name : String) : Option Cell :=
  (indexOfName (dfColumns df) name).map (fun j => (dfRowCells df cells).getD j none)

/-- The inner loop over `df.iterrows()` (lines 312-320): scan the accepted
rows for one whose column-B value equals the raw row's `sheet_row[1]`;
`break` on the first match, so the scan only reports whether a match
exists.  `colB?` is `headers[1]` of the re-fetched table, evaluated lazily
inside the loop (so an out-of-range header only raises when an accepted
row is actually scanned). -/
def matchRow (df : DF) (colB? : Option String) (cellB : String) :
    List (Nat × List Cell) → Except PyErr Bool
  | [] => .ok false
  | (_, cells) :: rest =>
    match colB? with
    | none => .error PyErr.indexError
    | some colB =>
      match dfLookup df cells colB with
      | none => .error PyErr.keyError
      | some v => if v = some cellB then .ok true else matchRow df colB? cellB rest

/-- The outer loop over `enumerate(values[1:], start=1)` (lines 307-320):
for each raw row with more than one cell whose column 0 is "New Request",
schedule a write of the fixed literal into `{sheet_name}!A{i+1}` when some
accepted row matches its column 1. -/
def update_loop (sheet_name : String) (df : DF) (colB? : Option String) :
    Nat → List (List String) → Except PyErr (List (String × String))
  | _, [] => .ok []
  | i, sheet_row :: rest =>
    if sheet_row.length > 1 then
      if sheet_row.getD 0 "" = "New Request" then
        match matchRow df colB? (sheet_row.getD 1 "") df.rows with
        | .error e => .error e
        | .ok true =>
          match update_loop sheet_name df colB? (i + 1) rest with
          | .error e => .error e
          | .ok writes =>
            .ok ((sheet_name ++ "!A" ++ toString (i + 1), "Submitted / In Progress") :: writes)
        | .ok false => update_loop sheet_name df colB? (i + 1) rest
      else update_loop sheet_name df colB? (i + 1) rest
    else update_loop sheet_name df colB? (i + 1) rest

/-- `update_sheet_status` (lines 285-334): the scheduled batch writes that
get submitted.  An empty re-fetch returns early; an exception is caught by
the function's handler, so no batch call is made. -/
def update_sheet_status (sheet_name : String) (values : List (List String)) (df : DF) :
    List (String × String) :=
  match values with
  | [] => []
  | headers :: data_rows =>
    match update_loop sheet_name df headers[1]? 1 data_rows with
    | .ok writes => writes
    | .error _ => []

/-- Whether one raw data row gets a status write scheduled: it has more
than one cell, its column 0 is "New Request", and some accepted row's
column-B value equals its column 1. -/
def rawRowMatches (df : DF) (colB : String) (sheet_row : List String) : Bool :=
  if sheet_row.length > 1 then
    if sheet_row.getD 0 "" = "New Request" then
      df.rows.any (fun rc => dfLookup df rc.2 colB == some (some (sheet_row.getD 1 "")))
    else false
  else false

/-- Reference form of the schedule: one write per matching raw data row,
in raw-row order, at ranges `A2, A3, ...`. -/
def scheduledWrites (sheet_name : String) (df : DF) (colB : String) :
    Nat → List (List String) → List (String × String)
  | _, [] => []
  | i, sheet_row :: rest =>
    if rawRowMatches df colB sheet_row then
      (sheet_name ++ "!A" ++ toString (i + 1), "Submitted / In Progress") ::
        scheduledWrites sheet_name df colB (i + 1) rest
    else scheduledWrites sheet_name df colB (i + 1) rest

/-! ### `combine_and_save_data`

`combine_and_save_data` (lines 336-382) loads the store, stamps
`last_run`, builds the API client, folds `download_sheet_data` over the
configured sources, and either reports "no new data" (persisting the
store) or writes the export, persists the store, and triggers the status
write-back per accepted source.  The embedding records the observable
outcome: the returned value, what (if anything) was passed to
`save_tracking_data`, what (if anything) was written to the export CSV,
and which sources were handed to `update_sheet_status`.
-/

deriving instance DecidableEq for Except

/-- One configured source together with the outcomes of its remote calls
(the inputs that `download_sheet_data` would obtain for it). -/
structure SourceInput where
  spreadsheet_id : String
  sheet_name : String
  md? : Option Metadata
  fetch : Except Unit (List (List String))
deriving DecidableEq, Repr

/-- The per-source loop (lines 349-359): run `download_sheet_data` on each
source in order, threading the tracking dict, and keep the sources whose
call returned a nonempty frame. -/
def processSources (FORCE_REFRESH TRACK_CHANGES : Bool) (salt : Nat) (now : String) :
    List SourceInput → TrackingData → List (SourceInput × DF) × TrackingData
  | [], t => ([], t)
  | s :: rest, t =>
    let r := download_sheet_data FORCE_REFRESH TRACK_CHANGES salt
      s.spreadsheet_id s.sheet_name s.md? s.fetch t now
    let tail := processSources FORCE_REFRESH TRACK_CHANGES salt now rest r.tracking
    match r.df with
    | some df => if df.rows.isEmpty then tail else ((s, df) :: tail.1, tail.2)
    | none => tail

/-- Observable outcome of one `combine_and_save_data` call.  `result` is
the function's return value (`none` models returning `False`, `some dfs`
models returning the concatenation of the accepted frames in source
order); `saved_tracking` is the store passed to `save_tracking_data` when
that call happens; `csv_written` is the data written to the timestamped
export file when one is written; `status_targets` are the sources handed
to `update_sheet_status`. -/
structure CombineOutcome where
  result : Option (List DF)
  saved_tracking : Option TrackingData
  csv_written : Option (List DF)
  status_targets : List (String × String)
deriving DecidableEq, Repr

/-- `combine_and_save_data` (lines 336-382).  `serviceOk` is whether
`setup_google_sheets_api` returned a client (it reports and returns `None`
on failure); `last_run` is stamped in memory before that check. -/
def combine_and_save_data (serviceOk FORCE_REFRESH TRACK_CHANGES : Bool) (salt : Nat)
    (sources : List SourceInput) (t0 : TrackingData) (now : String) : CombineOutcome :=
  let t1 : TrackingData := { t0 with last_run := some now }
  if serviceOk then
    match processSources FORCE_REFRESH TRACK_CHANGES salt now sources t1 with
    | (accepted, tF) =>
      if accepted.isEmpty then
        { result := none, saved_tracking := some tF, csv_written := none, status_targets := [] }
      else
        { result := some (accepted.map (fun p => p.2))
          saved_tracking := some tF
          csv_written := some (accepted.map (fun p => p.2))
          status_targets := accepted.map (fun p => (p.1.spreadsheet_id, p.1.sheet_name)) }
  else
    { result := none, saved_tracking := none, csv_written := none, status_targets := [] }

/-! ### Helper lemmas -/

theorem getEntry_setEntry_self (l : List (String × SheetEntry)) (k : String) (e : SheetEntry) :
    getEntry (setEntry l k e) k = some e := by
  induction l with
  | nil => simp [setEntry, getEntry]
  | cons p rest ih =>
    obtain ⟨k', e'⟩ := p
    by_cases h : k' = k
    · simp [setEntry, getEntry, h]
    · simp [setEntry, getEntry, h, ih]

/-- The fingerprint of a nonempty filtered frame never touches the salted
string hash, so it does not depend on the per-process hash salt. -/
theorem calcHash_salt_independent (df : DF) (h : df.rows ≠ []) (s1 s2 : Nat) :
    calculate_content_hash s1 (some df) = calculate_content_hash s2 (some df) := by
  have hz : ¬ df.rows.length = 0 := by simpa [List.length_eq_zero] using h
  simp [calculate_content_hash, hz]

/-- A failed values fetch is caught by the handler: no frame is returned
and the tracking store is untouched. -/
theorem download_fetch_error (F T : Bool) (salt : Nat) (sid sname : String)
    (md? : Option Metadata) (t : TrackingData) (now : String) :
    (download_sheet_data F T salt sid sname md? (.error ()) t now).df = none ∧
    (download_sheet_data F T salt sid sname md? (.error ()) t now).tracking = t := by
  unfold download_sheet_data download_core
  by_cases h : F = false ∧ md? = none
  · rw [if_pos h]; exact ⟨rfl, rfl⟩
  · rw [if_neg h]; exact ⟨rfl, rfl⟩

/-- Normal form of the tracked-mode body (`FORCE_REFRESH = False`,
`TRACK_CHANGES = True`, metadata present, values fetched). -/
theorem download_core_tracked_nil (salt : Nat) (sid sname : String) (m : Metadata)
    (t : TrackingData) (now : String) :
    download_core false true salt sid sname (some m) (.ok []) t now = .ok (none, t) := by
  unfold download_core; simp

/-- Normal form of the tracked-mode body on a nonempty values list. -/
theorem download_core_tracked_cons (salt : Nat) (sid sname : String) (m : Metadata)
    (headers : List String) (raw_rows : List (List String)) (t : TrackingData) (now : String) :
    download_core false true salt sid sname (some m) (.ok (headers :: raw_rows)) t now =
      if headers.length > 1 then
        if (buildDF sid sname headers raw_rows).rows.length = 0 then .ok (none, t)
        else if calculate_content_hash salt (some (buildDF sid sname headers raw_rows)) =
            previousHash t (sheetKey sid sname) then
          match getEntry t.sheets_data (sheetKey sid sname) with
          | none => .error PyErr.keyError
          | some e => .ok (none, touchEntry t (sheetKey sid sname) e (some m) now)
        else
          .ok (some (buildDF sid sname headers raw_rows),
            commitEntry salt t (sheetKey sid sname) (some m)
              (buildDF sid sname headers raw_rows) now)
      else .ok (none, t) := by
  unfold download_core; simp

/-- Normal form of the body on a nonempty values list with metadata
present, for arbitrary mode flags. -/
theorem download_core_some_ok_cons (F T : Bool) (salt : Nat) (sid sname : String)
    (m : Metadata) (headers : List String) (raw_rows : List (List String))
    (t : TrackingData) (now : String) :
    download_core F T salt sid sname (some m) (.ok (headers :: raw_rows)) t now =
      if headers.length > 1 then
        if (buildDF sid sname headers raw_rows).rows.length = 0 then .ok (none, t)
        else if F || !T then
          .ok (some (buildDF sid sname headers raw_rows),
            commitEntry salt t (sheetKey sid sname) (some m)
              (buildDF sid sname headers raw_rows) now)
        else if calculate_content_hash salt (some (buildDF sid sname headers raw_rows)) =
            previousHash t (sheetKey sid sname) then
          match getEntry t.sheets_data (sheetKey sid sname) with
          | none => .error PyErr.keyError
          | some e => .ok (none, touchEntry t (sheetKey sid sname) e (some m) now)
        else
          .ok (some (buildDF sid sname headers raw_rows),
            commitEntry salt t (sheetKey sid sname) (some m)
              (buildDF sid sname headers raw_rows) now)
      else .ok (none, t) := by
  unfold download_core; simp

/-- Normal form of the Force-mode body on a nonempty values list. -/
theorem download_core_force_ok_cons (T : Bool) (salt : Nat) (sid sname : String)
    (md? : Option Metadata) (headers : List String) (raw_rows : List (List String))
    (t : TrackingData) (now : String) :
    download_core true T salt sid sname md? (.ok (headers :: raw_rows)) t now =
      if headers.length > 1 then
        if (buildDF sid sname headers raw_rows).rows.length = 0 then .ok (none, t)
        else
          .ok (some (buildDF sid sname headers raw_rows),
            commitEntry salt t (sheetKey sid sname) md?
              (buildDF sid sname headers raw_rows) now)
      else .ok (none, t) := by
  unfold download_core; simp

/-- The wrapper around a body run that returns normally. -/
theorem download_sheet_data_core_ok {F T : Bool} {salt : Nat} {sid sname : String}
    {md? : Option Metadata} {fetch : Except Unit (List (List String))} {t : TrackingData}
    {now : String} {d : Option DF} {t' : TrackingData}
    (h : download_core F T salt sid sname md? fetch t now = .ok (d, t')) :
    download_sheet_data F T salt sid sname md? fetch t now = ⟨d, t', false⟩ := by
  unfold download_sheet_data; rw [h]

/-- The wrapper around a body run that raises: the handler reports and
returns `None` with the store untouched. -/
theorem download_sheet_data_core_error {F T : Bool} {salt : Nat} {sid sname : String}
    {md? : Option Metadata} {fetch : Except Unit (List (List String))} {t : TrackingData}
    {now : String} {e : PyErr}
    (h : download_core F T salt sid sname md? fetch t now = .error e) :
    download_sheet_data F T salt sid sname md? fetch t now = ⟨none, t, true⟩ := by
  unfold download_sheet_data; rw [h]

/-- Reduction of `update_sheet_status` on a nonempty re-fetch. -/
theorem update_sheet_status_cons (sheet_name : String) (headers : List String)
    (data_rows : List (List String)) (df : DF) :
    update_sheet_status sheet_name (headers :: data_rows) df =
      match update_loop sheet_name df headers[1]? 1 data_rows with
      | .ok writes => writes
      | .error _ => [] := rfl

/-- Re-running the tracked-mode body on the same fetched values directly
after a successful pass always skips: the committed (or confirmed)
fingerprint matches the recomputed one, whatever the new metadata and the
new process salt are. -/
theorem download_core_rerun (s1 s2 : Nat) (sid sname : String) (m1 m2 : Metadata)
    (values : List (List String)) (t0 t1 : TrackingData) (now1 now2 : String) (r1 : Option DF)
    (h : download_core false true s1 sid sname (some m1) (.ok values) t0 now1 = .ok (r1, t1)) :
    ∃ t2, download_core false true s2 sid sname (some m2) (.ok values) t1 now2 =
      .ok (none, t2) := by
  cases values with
  | nil =>
    rw [download_core_tracked_nil] at h
    simp only [Except.ok.injEq, Prod.mk.injEq] at h
    exact ⟨t0, by rw [← h.2, download_core_tracked_nil]⟩
  | cons headers raw_rows =>
    rw [download_core_tracked_cons] at h
    rw [download_core_tracked_cons]
    by_cases hl : headers.length > 1
    · rw [if_pos hl] at h ⊢
      by_cases hz : (buildDF sid sname headers raw_rows).rows.length = 0
      · rw [if_pos hz] at h ⊢
        simp only [Except.ok.injEq, Prod.mk.injEq] at h
        exact ⟨t0, by rw [← h.2]⟩
      · rw [if_neg hz] at h ⊢
        have hne : (buildDF sid sname headers raw_rows).rows ≠ [] := by
          simpa [← List.length_eq_zero] using hz
        have hsalt := calcHash_salt_independent (buildDF sid sname headers raw_rows) hne s2 s1
        by_cases hc : calculate_content_hash s1 (some (buildDF sid sname headers raw_rows)) =
            previousHash t0 (sheetKey sid sname)
        · rw [if_pos hc] at h
          cases hE : getEntry t0.sheets_data (sheetKey sid sname) with
          | none => rw [hE] at h; cases h
          | some e =>
            rw [hE] at h
            simp only [Except.ok.injEq, Prod.mk.injEq] at h
            have ht1 : t1 = touchEntry t0 (sheetKey sid sname) e (some m1) now1 := h.2.symm
            subst ht1
            have hPrev1 : previousHash (touchEntry t0 (sheetKey sid sname) e (some m1) now1)
                (sheetKey sid sname) = e.content_hash := by
              unfold previousHash touchEntry
              rw [getEntry_setEntry_self]; rfl
            have hPrev0 : previousHash t0 (sheetKey sid sname) = e.content_hash := by
              unfold previousHash; rw [hE]; rfl
            rw [if_pos (by rw [hPrev1, hsalt, hc, hPrev0])]
            unfold touchEntry
            rw [getEntry_setEntry_self]
            exact ⟨_, rfl⟩
        · rw [if_neg hc] at h
          simp only [Except.ok.injEq, Prod.mk.injEq] at h
          have ht1 : t1 = commitEntry s1 t0 (sheetKey sid sname) (some m1)
              (buildDF sid sname headers raw_rows) now1 := h.2.symm
          subst ht1
          have hPrev1 : previousHash (commitEntry s1 t0 (sheetKey sid sname) (some m1)
              (buildDF sid sname headers raw_rows) now1) (sheetKey sid sname) =
              calculate_content_hash s1 (some (buildDF sid sname headers raw_rows)) := by
            unfold previousHash commitEntry
            rw [getEntry_setEntry_self]; rfl
          rw [if_pos (by rw [hPrev1, hsalt])]
          unfold commitEntry
          rw [getEntry_setEntry_self]
          exact ⟨_, rfl⟩
    · rw [if_neg hl] at h ⊢
      simp only [Except.ok.injEq, Prod.mk.injEq] at h
      exact ⟨t0, by rw [← h.2]⟩

/-- When the column-B label exists among the frame's columns, the inner
scan never raises and reports exactly whether some accepted row matches. -/
theorem matchRow_eq_any (df : DF) (colB : String) (b : String)
    (hj : (indexOfName (dfColumns df) colB).isSome) (rows : List (Nat × List Cell)) :
    matchRow df (some colB) b rows =
      .ok (rows.any (fun rc => dfLookup df rc.2 colB == some (some b))) := by
  obtain ⟨j, hj'⟩ := Option.isSome_iff_exists.mp hj
  induction rows with
  | nil => rfl
  | cons rc rest ih =>
    obtain ⟨i, cells⟩ := rc
    have hlook : dfLookup df cells colB = some ((dfRowCells df cells).getD j none) := by
      unfold dfLookup; rw [hj']; rfl
    by_cases hv : (dfRowCells df cells)[j]?.getD none = some b
    · simp [matchRow, hlook, hv, List.any_cons]
    · simp [matchRow, hlook, hv, List.any_cons, ih]

/-- When the column-B label exists, the outer loop never raises and
schedules exactly one write per matching raw row, in order. -/
theorem update_loop_eq_scheduled (sheet_name : String) (df : DF) (colB : String)
    (hj : (indexOfName (dfColumns df) colB).isSome) (rows : List (List String)) (i : Nat) :
    update_loop sheet_name df (some colB) i rows =
      .ok (scheduledWrites sheet_name df colB i rows) := by
  induction rows generalizing i with
  | nil => rfl
  | cons sheet_row rest ih =>
    by_cases h1 : sheet_row.length > 1
    · by_cases h0 : sheet_row.getD 0 "" = "New Request"
      · rw [update_loop, scheduledWrites, if_pos h1, if_pos h0,
          matchRow_eq_any df colB (sheet_row.getD 1 "") hj]
        by_cases hm : df.rows.any
            (fun rc => dfLookup df rc.2 colB == some (some (sheet_row.getD 1 ""))) = true
        · rw [hm]
          have : rawRowMatches df colB sheet_row = true := by
            unfold rawRowMatches; rw [if_pos h1, if_pos h0]; exact hm
          rw [if_pos this, ih]
        · rw [Bool.not_eq_true] at hm
          rw [hm]
          have : rawRowMatches df colB sheet_row = false := by
            unfold rawRowMatches; rw [if_pos h1, if_pos h0]; exact hm
          rw [if_neg (by simp [this]), ih]
      · have : rawRowMatches df colB sheet_row = false := by
          unfold rawRowMatches; rw [if_pos h1, if_neg h0]
        rw [update_loop, scheduledWrites, if_pos h1, if_neg h0,
          if_neg (by simp [this]), ih]
    · have : rawRowMatches df colB sheet_row = false := by
        unfold rawRowMatches; rw [if_neg h1]
      rw [update_loop, scheduledWrites, if_neg h1, if_neg (by simp [this]), ih]

/-- One write per matching raw row: the schedule is as long as the list of
matching raw rows. -/
theorem scheduledWrites_length (sheet_name : String) (df : DF) (colB : String)
    (rows : List (List String)) (i : Nat) :
    (scheduledWrites sheet_name df colB i rows).length =
      (rows.filter (rawRowMatches df colB)).length := by
  induction rows generalizing i with
  | nil => rfl
  | cons sheet_row rest ih =>
    rw [scheduledWrites, List.filter_cons]
    by_cases hm : rawRowMatches df colB sheet_row = true
    · rw [if_pos hm, if_pos hm]
      simp [ih]
    · rw [Bool.not_eq_true] at hm
      rw [if_neg (by simp [hm]), if_neg (by simp [hm])]
      exact ih _

/-! ### Claims -/

/-- Claim C1, counterexample.  With acceptedRows holding exactly one row
whose column 1 is "Alice" and the re-fetched raw rows holding two rows
`["New Request", "Alice"]`, `update_sheet_status` schedules the status
write into BOTH matching raw rows (ranges `A2` and `A3`), not exactly one
of them as claimed: the `break` only stops the scan over accepted rows for
the current raw row, so each duplicate raw row absorbs its own write. -/
theorem claim_C1_counterexample :
    (update_sheet_status "Sheet1"
        [["Status", "Name"], ["New Request", "Alice"], ["New Request", "Alice"]]
        ⟨["Status", "Name"], [(0, [some "New Request", some "Alice"])],
          "sheetid", "Sheet1"⟩).map Prod.fst = ["Sheet1!A2", "Sheet1!A3"] ∧
    ¬ (update_sheet_status "Sheet1"
        [["Status", "Name"], ["New Request", "Alice"], ["New Request", "Alice"]]
        ⟨["Status", "Name"], [(0, [some "New Request", some "Alice"])],
          "sheetid", "Sheet1"⟩).length = 1 := by
  constructor
  · rfl
  · decide

/-- Claim C1 (amended): `update_sheet_status` schedules exactly one write
per *matching raw row* — every raw data row with more than one cell, a
"New Request" column 0, and some accepted row matching its column 1 gets
one write of the fixed status literal at its own range, so duplicate
matching raw rows each receive a write (the `break` caps the writes at one
per raw row, not at one per accepted row). -/
theorem claim_C1_theorem (sheet_name : String) (df : DF) (headers : List String)
    (data_rows : List (List String)) (colB : String)
    (hB : headers[1]? = some colB)
    (hj : (indexOfName (dfColumns df) colB).isSome) :
    update_sheet_status sheet_name (headers :: data_rows) df =
      scheduledWrites sheet_name df colB 1 data_rows ∧
    (update_sheet_status sheet_name (headers :: data_rows) df).length =
      (data_rows.filter (rawRowMatches df colB)).length := by
  have h1 : update_sheet_status sheet_name (headers :: data_rows) df =
      scheduledWrites sheet_name df colB 1 data_rows := by
    rw [update_sheet_status_cons, hB, update_loop_eq_scheduled sheet_name df colB hj data_rows 1]
  exact ⟨h1, by rw [h1, scheduledWrites_length]⟩

/-- Claim C1, witness for the amended theorem at a concrete input. -/
theorem claim_C1_witness :
    ((["Status", "Name"] : List String)[1]? = some "Name") ∧
    (indexOfName
      (dfColumns ⟨["Status", "Name"], [(0, [some "New Request", some "Bob"])],
        "sid", "Tab"⟩) "Name").isSome ∧
    (update_sheet_status "Tab" [["Status", "Name"], ["New Request", "Bob"], ["Done", "Bob"]]
        ⟨["Status", "Name"], [(0, [some "New Request", some "Bob"])], "sid", "Tab"⟩ =
      scheduledWrites "Tab"
        ⟨["Status", "Name"], [(0, [some "New Request", some "Bob"])], "sid", "Tab"⟩
        "Name" 1 [["New Request", "Bob"], ["Done", "Bob"]] ∧
    (update_sheet_status "Tab" [["Status", "Name"], ["New Request", "Bob"], ["Done", "Bob"]]
        ⟨["Status", "Name"], [(0, [some "New Request", some "Bob"])], "sid", "Tab"⟩).length =
      ([["New Request", "Bob"], ["Done", "Bob"]].filter
        (rawRowMatches ⟨["Status", "Name"], [(0, [some "New Request", some "Bob"])],
          "sid", "Tab"⟩ "Name")).length) :=
  ⟨rfl, by decide,
    claim_C1_theorem "Tab"
      ⟨["Status", "Name"], [(0, [some "New Request", some "Bob"])], "sid", "Tab"⟩
      ["Status", "Name"] [["New Request", "Bob"], ["Done", "Bob"]] "Name" rfl (by decide)⟩

/-- Claim C2, counterexample.  A fetched table whose header row declares a
single column produces zero filtered rows, but no configuration error is
reported to the caller: `download_sheet_data` returns `None` silently
(`error_reported = false`) and leaves the store untouched, refuting the
claimed error report. -/
theorem claim_C2_counterexample :
    download_sheet_data false true 0 "s" "tab" (some ⟨5, 1, "mt"⟩)
        (.ok [["Only"], ["New Request"]]) ⟨none, []⟩ "NOW" =
      ⟨none, ⟨none, []⟩, false⟩ := by
  rfl

/-- Claim C2 (amended): a fetched table whose header row declares fewer
than two columns produces zero filtered rows and does not crash, but the
table is skipped silently — no error of any kind is reported to the
caller and the tracking store is left untouched. -/
theorem claim_C2_theorem (F T : Bool) (salt : Nat) (sid sname : String) (m : Metadata)
    (headers : List String) (raw_rows : List (List String)) (t : TrackingData) (now : String)
    (hshort : ¬ headers.length > 1) :
    download_sheet_data F T salt sid sname (some m) (.ok (headers :: raw_rows)) t now =
      ⟨none, t, false⟩ := by
  refine download_sheet_data_core_ok ?_
  rw [download_core_some_ok_cons, if_neg hshort]

/-- Claim C2, witness for the amended theorem at a concrete input. -/
theorem claim_C2_witness :
    (¬ (["Only"] : List String).length > 1) ∧
    download_sheet_data false true 3 "s" "tab" (some ⟨5, 1, "mt"⟩)
        (.ok [["Only"], ["New Request"], ["x"]]) ⟨some "R", []⟩ "NOW" =
      ⟨none, ⟨some "R", []⟩, false⟩ :=
  ⟨by decide,
    claim_C2_theorem false true 3 "s" "tab" ⟨5, 1, "mt"⟩ ["Only"] [["New Request"], ["x"]]
      ⟨some "R", []⟩ "NOW" (by decide)⟩

/-- Claim C3, counterexample.  In Force mode a call on an existing table
whose fetch yields no filter-accepted rows returns `None` (a skip, not a
Process decision) and does not overwrite the stored tracking entry: the
prior fingerprint `999` survives unchanged, refuting "every call ...
returns Process and overwrites the stored fingerprint". -/
theorem claim_C3_counterexample :
    download_sheet_data true true 0 "s" "tab" none
        (.ok [["Status", "Name"], ["Done", "Bob"]])
        ⟨some "R0", [("s_tab", ⟨some ⟨1, 2, "old"⟩, 999, some "P0", none⟩)]⟩ "NOW" =
      ⟨none, ⟨some "R0", [("s_tab", ⟨some ⟨1, 2, "old"⟩, 999, some "P0", none⟩)]⟩, false⟩ := by
  rfl

/-- Claim C3 (amended): in Force mode every call whose fetched values are
nonempty, declare more than one column, and yield at least one filtered
row returns the filtered rows and overwrites the tracking entry with the
fresh fingerprint, for every prior tracking-store state; calls whose
fetch yields an empty values list, a short header row, or zero filtered
rows return `None` and leave the store untouched. -/
theorem claim_C3_theorem (T : Bool) (salt : Nat) (sid sname : String) (md? : Option Metadata)
    (headers : List String) (raw_rows : List (List String)) (t : TrackingData) (now : String)
    (hcols : headers.length > 1)
    (hrows : (buildDF sid sname headers raw_rows).rows ≠ []) :
    download_sheet_data true T salt sid sname md? (.ok (headers :: raw_rows)) t now =
      ⟨some (buildDF sid sname headers raw_rows),
        commitEntry salt t (sheetKey sid sname) md? (buildDF sid sname headers raw_rows) now,
        false⟩ ∧
    getEntry (commitEntry salt t (sheetKey sid sname) md?
        (buildDF sid sname headers raw_rows) now).sheets_data (sheetKey sid sname) =
      some ⟨md?, calculate_content_hash salt (some (buildDF sid sname headers raw_rows)),
        some now, none⟩ := by
  constructor
  · refine download_sheet_data_core_ok ?_
    rw [download_core_force_ok_cons, if_pos hcols,
      if_neg (by simpa [List.length_eq_zero] using hrows)]
  · unfold commitEntry
    rw [getEntry_setEntry_self]

/-- Claim C3, witness for the amended theorem at a concrete input. -/
theorem claim_C3_witness :
    ((["Status", "Name"] : List String).length > 1) ∧
    (buildDF "s" "tab" ["Status", "Name"] [["New Request", "Eve"]]).rows ≠ [] ∧
    (download_sheet_data true true 0 "s" "tab" none
        (.ok [["Status", "Name"], ["New Request", "Eve"]])
        ⟨some "R0", [("s_tab", ⟨some ⟨1, 2, "old"⟩, 999, some "P0", none⟩)]⟩ "NOW" =
      ⟨some (buildDF "s" "tab" ["Status", "Name"] [["New Request", "Eve"]]),
        commitEntry 0 ⟨some "R0", [("s_tab", ⟨some ⟨1, 2, "old"⟩, 999, some "P0", none⟩)]⟩
          (sheetKey "s" "tab") none
          (buildDF "s" "tab" ["Status", "Name"] [["New Request", "Eve"]]) "NOW",
        false⟩ ∧
    getEntry (commitEntry 0 ⟨some "R0", [("s_tab", ⟨some ⟨1, 2, "old"⟩, 999, some "P0", none⟩)]⟩
        (sheetKey "s" "tab") none
        (buildDF "s" "tab" ["Status", "Name"] [["New Request", "Eve"]]) "NOW").sheets_data
      (sheetKey "s" "tab") =
      some ⟨none, calculate_content_hash 0
        (some (buildDF "s" "tab" ["Status", "Name"] [["New Request", "Eve"]])),
        some "NOW", none⟩) :=
  ⟨by decide, by decide,
    claim_C3_theorem true 0 "s" "tab" none ["Status", "Name"] [["New Request", "Eve"]]
      ⟨some "R0", [("s_tab", ⟨some ⟨1, 2, "old"⟩, 999, some "P0", none⟩)]⟩ "NOW"
      (by decide) (by decide)⟩

/-- Claim C4, counterexample.  Two consecutive tracked-mode passes whose
*filtered content* is identical ( the single Alice row) but whose raw
tables differ (a non-matching "Done" row precedes it in the second fetch)
give a Process decision on the second pass, not Skip: the fingerprint
hashes the pandas index of the filtered rows (their positions among the
fetched data rows), which shifted from 0 to 1. -/
theorem claim_C4_counterexample :
    ((download_sheet_data false true 0 "s" "n" (some ⟨2, 2, "m1"⟩)
        (.ok [["Status", "Name"], ["New Request", "Alice"]]) ⟨none, []⟩ "T1").df.map
      contentsOf = some [[some "New Request", some "Alice"]]) ∧
    ((download_sheet_data false true 0 "s" "n" (some ⟨3, 2, "m2"⟩)
        (.ok [["Status", "Name"], ["Done", "Bob"], ["New Request", "Alice"]])
        (download_sheet_data false true 0 "s" "n" (some ⟨2, 2, "m1"⟩)
          (.ok [["Status", "Name"], ["New Request", "Alice"]]) ⟨none, []⟩ "T1").tracking
        "T2").df.map contentsOf = some [[some "New Request", some "Alice"]]) ∧
    ¬ (download_sheet_data false true 0 "s" "n" (some ⟨3, 2, "m2"⟩)
        (.ok [["Status", "Name"], ["Done", "Bob"], ["New Request", "Alice"]])
        (download_sheet_data false true 0 "s" "n" (some ⟨2, 2, "m1"⟩)
          (.ok [["Status", "Name"], ["New Request", "Alice"]]) ⟨none, []⟩ "T1").tracking
        "T2").df = none :=
  ⟨by decide, by decide, by decide⟩

/-- Claim C4 (amended): in Tracked mode, when two consecutive passes fetch
the *same values list* (hence identical filtered rows at identical
positions) and the first pass completes without an error report, the
second pass yields Skip (returns no rows), regardless of any difference in
the metadata (row count, modified time) handed to the two passes and even
across different process hash salts — the metadata comparison never gates
the decision.  Identical filtered content alone does not suffice, because
the fingerprint also covers the rows' positions in the fetched table. -/
theorem claim_C4_theorem (s1 s2 : Nat) (sid sname : String) (m1 m2 : Metadata)
    (values : List (List String)) (t0 : TrackingData) (now1 now2 : String)
    (r1 : Option DF) (t1 : TrackingData)
    (h : download_sheet_data false true s1 sid sname (some m1) (.ok values) t0 now1 =
      ⟨r1, t1, false⟩) :
    ∃ t2, download_sheet_data false true s2 sid sname (some m2) (.ok values) t1 now2 =
      ⟨none, t2, false⟩ := by
  cases hc : download_core false true s1 sid sname (some m1) (.ok values) t0 now1 with
  | error e =>
    rw [download_sheet_data_core_error hc] at h
    have hfalse : true = false := congrArg DownloadResult.error_reported h
    cases hfalse
  | ok p =>
    obtain ⟨d, t⟩ := p
    rw [download_sheet_data_core_ok hc] at h
    have ht : t = t1 := congrArg DownloadResult.tracking h
    subst ht
    obtain ⟨t2, h2⟩ := download_core_rerun s1 s2 sid sname m1 m2 values t0 t now1 now2 d hc
    exact ⟨t2, download_sheet_data_core_ok h2⟩

/-- Claim C4, witness for the amended theorem at a concrete input (pass 1
commits the Alice row; pass 2 re-fetches the same values under different
metadata and a different salt and must skip). -/
theorem claim_C4_witness :
    (download_sheet_data false true 0 "s" "n" (some ⟨2, 2, "m1"⟩)
        (.ok [["Status", "Name"], ["New Request", "Alice"]]) ⟨none, []⟩ "T1" =
      ⟨(download_sheet_data false true 0 "s" "n" (some ⟨2, 2, "m1"⟩)
          (.ok [["Status", "Name"], ["New Request", "Alice"]]) ⟨none, []⟩ "T1").df,
        (download_sheet_data false true 0 "s" "n" (some ⟨2, 2, "m1"⟩)
          (.ok [["Status", "Name"], ["New Request", "Alice"]]) ⟨none, []⟩ "T1").tracking,
        false⟩) ∧
    ∃ t2, download_sheet_data false true 7 "s" "n" (some ⟨99, 2, "m2"⟩)
        (.ok [["Status", "Name"], ["New Request", "Alice"]])
        (download_sheet_data false true 0 "s" "n" (some ⟨2, 2, "m1"⟩)
          (.ok [["Status", "Name"], ["New Request", "Alice"]]) ⟨none, []⟩ "T1").tracking
        "T2" = ⟨none, t2, false⟩ :=
  ⟨by decide,
    claim_C4_theorem 0 7 "s" "n" ⟨2, 2, "m1"⟩ ⟨99, 2, "m2"⟩
      [["Status", "Name"], ["New Request", "Alice"]] ⟨none, []⟩ "T1" "T2"
      (download_sheet_data false true 0 "s" "n" (some ⟨2, 2, "m1"⟩)
        (.ok [["Status", "Name"], ["New Request", "Alice"]]) ⟨none, []⟩ "T1").df
      (download_sheet_data false true 0 "s" "n" (some ⟨2, 2, "m1"⟩)
        (.ok [["Status", "Name"], ["New Request", "Alice"]]) ⟨none, []⟩ "T1").tracking
      (by decide)⟩

/-- Claim C6, counterexample.  Two fetches whose filtered row contents are
identical (the single Alice row, same provenance) produce different
fingerprints, because the fingerprint also hashes each filtered row's
pandas index: the fingerprint is not a function of the filtered row
contents alone. -/
theorem claim_C6_counterexample :
    contentsOf (buildDF "s" "n" ["Status", "Name"] [["New Request", "Alice"]]) =
      contentsOf (buildDF "s" "n" ["Status", "Name"]
        [["Done", "Bob"], ["New Request", "Alice"]]) ∧
    ¬ calculate_content_hash 0
        (some (buildDF "s" "n" ["Status", "Name"] [["New Request", "Alice"]])) =
      calculate_content_hash 0
        (some (buildDF "s" "n" ["Status", "Name"]
          [["Done", "Bob"], ["New Request", "Alice"]])) :=
  ⟨by decide, by decide⟩

/-- Claim C6 (amended): for a nonempty filtered set the fingerprint never
touches the salted Python string hash, so it is deterministic across
process runs — but it is a function of the filtered rows' contents *and*
of their positions (pandas indices) in the fetched table, not of the
contents alone; the empty set maps to the salted `hash("empty")`, which is
stable only within one process. -/
theorem claim_C6_theorem (df : DF) (h : df.rows ≠ []) (s1 s2 : Nat) :
    calculate_content_hash s1 (some df) = calculate_content_hash s2 (some df) :=
  calcHash_salt_independent df h s1 s2

/-- Claim C6, witness for the amended theorem at a concrete input. -/
theorem claim_C6_witness :
    ((buildDF "s" "n" ["Status", "Name"] [["New Request", "Alice"]]).rows ≠ []) ∧
    calculate_content_hash 0
        (some (buildDF "s" "n" ["Status", "Name"] [["New Request", "Alice"]])) =
      calculate_content_hash 5
        (some (buildDF "s" "n" ["Status", "Name"] [["New Request", "Alice"]])) :=
  ⟨by decide, claim_C6_theorem _ (by decide) 0 5⟩

/-- Claim C9: in Tracked mode the skip branch mutates the existing entry
without creating it first, so with the sheet key absent from the store and
a nonempty filtered frame the body's outcome turns on whether the computed
fingerprint equals the absent-entry default `0`: equal means the first
assignment raises a `KeyError` (caught by the function's own handler,
which reports it and returns `None`); different means the first-seen
Process commit. -/
theorem claim_C9_theorem (salt : Nat) (sid sname : String) (m : Metadata)
    (headers : List String) (raw_rows : List (List String)) (t : TrackingData) (now : String)
    (hcols : headers.length > 1)
    (habsent : getEntry t.sheets_data (sheetKey sid sname) = none)
    (hrows : (buildDF sid sname headers raw_rows).rows ≠ []) :
    download_core false true salt sid sname (some m) (.ok (headers :: raw_rows)) t now =
      if calculate_content_hash salt (some (buildDF sid sname headers raw_rows)) = 0 then
        .error PyErr.keyError
      else
        .ok (some (buildDF sid sname headers raw_rows),
          commitEntry salt t (sheetKey sid sname) (some m)
            (buildDF sid sname headers raw_rows) now) := by
  rw [download_core_tracked_cons, if_pos hcols,
    if_neg (by simpa [List.length_eq_zero] using hrows)]
  have hprev : previousHash t (sheetKey sid sname) = 0 := by
    unfold previousHash; rw [habsent]; rfl
  rw [hprev, habsent]

/-- Claim C9, witness at a concrete input (absent key, nonempty filter). -/
theorem claim_C9_witness :
    ((["Status", "Name"] : List String).length > 1) ∧
    getEntry (⟨none, []⟩ : TrackingData).sheets_data (sheetKey "s" "n") = none ∧
    (buildDF "s" "n" ["Status", "Name"] [["New Request", "Alice"]]).rows ≠ [] ∧
    download_core false true 0 "s" "n" (some ⟨2, 2, "m"⟩)
        (.ok [["Status", "Name"], ["New Request", "Alice"]]) ⟨none, []⟩ "NOW" =
      (if calculate_content_hash 0
          (some (buildDF "s" "n" ["Status", "Name"] [["New Request", "Alice"]])) = 0 then
        .error PyErr.keyError
      else
        .ok (some (buildDF "s" "n" ["Status", "Name"] [["New Request", "Alice"]]),
          commitEntry 0 ⟨none, []⟩ (sheetKey "s" "n") (some ⟨2, 2, "m"⟩)
            (buildDF "s" "n" ["Status", "Name"] [["New Request", "Alice"]]) "NOW")) :=
  ⟨by decide, rfl, by decide,
    claim_C9_theorem 0 "s" "n" ⟨2, 2, "m"⟩ ["Status", "Name"] [["New Request", "Alice"]]
      ⟨none, []⟩ "NOW" (by decide) rfl (by decide)⟩

/-- The per-source loop on an empty source list. -/
theorem processSources_nil (F T : Bool) (salt : Nat) (now : String) (t : TrackingData) :
    processSources F T salt now [] t = ([], t) := rfl

/-- Unrolling of the per-source loop (zeta-expanded form of its body). -/
theorem processSources_cons (F T : Bool) (salt : Nat) (now : String) (s : SourceInput)
    (rest : List SourceInput) (t : TrackingData) :
    processSources F T salt now (s :: rest) t =
      match (download_sheet_data F T salt s.spreadsheet_id s.sheet_name s.md? s.fetch t now).df with
      | some df =>
        if df.rows.isEmpty then
          processSources F T salt now rest
            (download_sheet_data F T salt s.spreadsheet_id s.sheet_name s.md? s.fetch t now).tracking
        else
          ((s, df) :: (processSources F T salt now rest
              (download_sheet_data F T salt s.spreadsheet_id s.sheet_name s.md?
                s.fetch t now).tracking).1,
            (processSources F T salt now rest
              (download_sheet_data F T salt s.spreadsheet_id s.sheet_name s.md?
                s.fetch t now).tracking).2)
      | none =>
        processSources F T salt now rest
          (download_sheet_data F T salt s.spreadsheet_id s.sheet_name s.md? s.fetch t now).tracking
    := rfl

/-- Claim C7: with sources `[A, B]` where A's values fetch raises (e.g.
access denied) and B succeeds with accepted rows, the pass still returns
B's rows as the merged result, writes them to the export, persists the
store, and hands only B to the status writer; A's failure was caught
inside `download_sheet_data` (reported via `st.error`), never propagated
out of the pass. -/
theorem claim_C7_theorem (F T : Bool) (salt : Nat) (A B : SourceInput) (t0 : TrackingData)
    (now : String) (dfB : DF) (tB : TrackingData)
    (hA : A.fetch = .error ())
    (hB : download_sheet_data F T salt B.spreadsheet_id B.sheet_name B.md? B.fetch
        { t0 with last_run := some now } now = ⟨some dfB, tB, false⟩)
    (hrows : dfB.rows ≠ []) :
    combine_and_save_data true F T salt [A, B] t0 now =
      ⟨some [dfB], some tB, some [dfB], [(B.spreadsheet_id, B.sheet_name)]⟩ := by
  have hAd := download_fetch_error F T salt A.spreadsheet_id A.sheet_name A.md?
    { t0 with last_run := some now } now
  cases hr : dfB.rows with
  | nil => exact absurd hr hrows
  | cons a l =>
    have h1 : processSources F T salt now [A, B] { t0 with last_run := some now } =
        ([(B, dfB)], tB) := by
      rw [processSources_cons, hA, hAd.1, hAd.2]
      rw [processSources_cons, hB]
      simp [hr, processSources_nil]
    simp only [combine_and_save_data]
    rw [h1]
    simp

/-- Claim C7, witness at a concrete input (A denied, B accepted). -/
theorem claim_C7_witness :
    ((⟨"a", "t1", none, .error ()⟩ : SourceInput).fetch = .error ()) ∧
    download_sheet_data false true 0
        (⟨"b", "t2", some ⟨2, 2, "m"⟩,
          .ok [["Status", "Name"], ["New Request", "Carol"]]⟩ : SourceInput).spreadsheet_id
        (⟨"b", "t2", some ⟨2, 2, "m"⟩,
          .ok [["Status", "Name"], ["New Request", "Carol"]]⟩ : SourceInput).sheet_name
        (⟨"b", "t2", some ⟨2, 2, "m"⟩,
          .ok [["Status", "Name"], ["New Request", "Carol"]]⟩ : SourceInput).md?
        (⟨"b", "t2", some ⟨2, 2, "m"⟩,
          .ok [["Status", "Name"], ["New Request", "Carol"]]⟩ : SourceInput).fetch
        { (⟨none, []⟩ : TrackingData) with last_run := some "NOW" } "NOW" =
      ⟨some (buildDF "b" "t2" ["Status", "Name"] [["New Request", "Carol"]]),
        (download_sheet_data false true 0 "b" "t2" (some ⟨2, 2, "m"⟩)
          (.ok [["Status", "Name"], ["New Request", "Carol"]]) ⟨some "NOW", []⟩
          "NOW").tracking, false⟩ ∧
    (buildDF "b" "t2" ["Status", "Name"] [["New Request", "Carol"]]).rows ≠ [] ∧
    combine_and_save_data true false true 0
        [⟨"a", "t1", none, .error ()⟩,
          ⟨"b", "t2", some ⟨2, 2, "m"⟩, .ok [["Status", "Name"], ["New Request", "Carol"]]⟩]
        ⟨none, []⟩ "NOW" =
      ⟨some [buildDF "b" "t2" ["Status", "Name"] [["New Request", "Carol"]]],
        some (download_sheet_data false true 0 "b" "t2" (some ⟨2, 2, "m"⟩)
          (.ok [["Status", "Name"], ["New Request", "Carol"]]) ⟨some "NOW", []⟩
          "NOW").tracking,
        some [buildDF "b" "t2" ["Status", "Name"] [["New Request", "Carol"]]],
        [("b", "t2")]⟩ :=
  ⟨rfl, by decide, by decide,
    claim_C7_theorem false true 0 ⟨"a", "t1", none, .error ()⟩
      ⟨"b", "t2", some ⟨2, 2, "m"⟩, .ok [["Status", "Name"], ["New Request", "Carol"]]⟩
      ⟨none, []⟩ "NOW" (buildDF "b" "t2" ["Status", "Name"] [["New Request", "Carol"]])
      (download_sheet_data false true 0 "b" "t2" (some ⟨2, 2, "m"⟩)
        (.ok [["Status", "Name"], ["New Request", "Carol"]]) ⟨some "NOW", []⟩ "NOW").tracking
      rfl (by decide) (by decide)⟩

/-- Claim C8: when the per-source loop accepts nothing (every source
skipped, empty, or failed), the pass returns the NoChanges outcome
(`False`), still persists the tracking store exactly as updated by the
loop (so `last_checked` refreshes from Skip decisions survive), and
writes no export artifact. -/
theorem claim_C8_theorem (F T : Bool) (salt : Nat) (sources : List SourceInput)
    (t0 : TrackingData) (now : String) (tF : TrackingData)
    (h : processSources F T salt now sources { t0 with last_run := some now } = ([], tF)) :
    combine_and_save_data true F T salt sources t0 now = ⟨none, some tF, none, []⟩ := by
  simp only [combine_and_save_data]
  rw [h]
  simp

/-- Claim C8, witness at a concrete input: the single source is skipped
because its stored fingerprint matches, the loop accepts nothing, and the
touched store (refreshed `last_checked`) is still persisted. -/
theorem claim_C8_witness :
    (processSources false true 0 "NOW"
        [⟨"s", "n", some ⟨9, 9, "new"⟩, .ok [["Status", "Name"], ["New Request", "Alice"]]⟩]
        { (⟨none, [("s_n", ⟨some ⟨2, 2, "m1"⟩,
            calculate_content_hash 0
              (some (buildDF "s" "n" ["Status", "Name"] [["New Request", "Alice"]])),
            some "T1", none⟩)]⟩ : TrackingData) with last_run := some "NOW" } =
      ([], (processSources false true 0 "NOW"
        [⟨"s", "n", some ⟨9, 9, "new"⟩, .ok [["Status", "Name"], ["New Request", "Alice"]]⟩]
        { (⟨none, [("s_n", ⟨some ⟨2, 2, "m1"⟩,
            calculate_content_hash 0
              (some (buildDF "s" "n" ["Status", "Name"] [["New Request", "Alice"]])),
            some "T1", none⟩)]⟩ : TrackingData) with last_run := some "NOW" }).2)) ∧
    combine_and_save_data true false true 0
        [⟨"s", "n", some ⟨9, 9, "new"⟩, .ok [["Status", "Name"], ["New Request", "Alice"]]⟩]
        ⟨none, [("s_n", ⟨some ⟨2, 2, "m1"⟩,
          calculate_content_hash 0
            (some (buildDF "s" "n" ["Status", "Name"] [["New Request", "Alice"]])),
          some "T1", none⟩)]⟩ "NOW" =
      ⟨none, some (processSources false true 0 "NOW"
        [⟨"s", "n", some ⟨9, 9, "new"⟩, .ok [["Status", "Name"], ["New Request", "Alice"]]⟩]
        { (⟨none, [("s_n", ⟨some ⟨2, 2, "m1"⟩,
            calculate_content_hash 0
              (some (buildDF "s" "n" ["Status", "Name"] [["New Request", "Alice"]])),
            some "T1", none⟩)]⟩ : TrackingData) with last_run := some "NOW" }).2,
        none, []⟩ :=
  ⟨by decide,
    claim_C8_theorem false true 0
      [⟨"s", "n", some ⟨9, 9, "new"⟩, .ok [["Status", "Name"], ["New Request", "Alice"]]⟩]
      ⟨none, [("s_n", ⟨some ⟨2, 2, "m1"⟩,
        calculate_content_hash 0
          (some (buildDF "s" "n" ["Status", "Name"] [["New Request", "Alice"]])),
        some "T1", none⟩)]⟩ "NOW"
      (processSources false true 0 "NOW"
        [⟨"s", "n", some ⟨9, 9, "new"⟩, .ok [["Status", "Name"], ["New Request", "Alice"]]⟩]
        { (⟨none, [("s_n", ⟨some ⟨2, 2, "m1"⟩,
            calculate_content_hash 0
              (some (buildDF "s" "n" ["Status", "Name"] [["New Request", "Alice"]])),
            some "T1", none⟩)]⟩ : TrackingData) with last_run := some "NOW" }).2
      (by decide)⟩

/-- Claim C10: when the API client cannot be constructed
(`setup_google_sheets_api` returned `None`), `combine_and_save_data`
returns `False` before touching any source: no tracking store is saved,
no export is written, and no status write-back happens — the persisted
state is unchanged even though `last_run` was already stamped on the
in-memory copy (which is then discarded).  The outcome is independent of
the configured sources and the prior store. -/
theorem claim_C10_theorem (F T : Bool) (salt : Nat) (sources : List SourceInput)
    (t0 : TrackingData) (now : String) :
    combine_and_save_data false F T salt sources t0 now = ⟨none, none, none, []⟩ := rfl

end SheetsCombiner
